import Mathlib

/-!
# Verification of the dccbot DCC transfer engine

Shallow embedding of the parts of `dccbot` (files `dccbot/ircbot.py`,
`dccbot/manager.py`, `dccbot/app.py`, `dccbot/aiodcc.py`) that the checked
properties talk about, together with proofs (or refutations) of those
properties.

Conventions:
* Python `int` is embedded as `Int` (arbitrary precision, may be negative);
  counters that are provably non-negative use `Nat`.
* Python `float` timestamps are embedded as `Nat` seconds; every comparison
  that appears in the source is reproduced verbatim on these values.
* Dictionaries are embedded as association lists, preserving insertion order
  where the source iterates over them.
* Mutable dictionaries shared between the per-session `current_transfers`
  map and the manager's `transfers` history are embedded as a store of
  records indexed by `Nat` ids; both sides hold ids, so an update through
  one side is visible through the other, exactly like Python aliasing.
-/

namespace Dccbot

/-! ## Byte-level ack encoding

Embeds `struct.pack("!I", v)` / `struct.pack("!Q", v)` (big-endian unsigned,
4 resp. 8 bytes, raising `struct.error` on a value outside the range) used by
`IRCBot.on_dccmsg` (ircbot.py:924-929), and `AioDCCConnection.send_bytes`
(aiodcc.py:172-182), which writes the packed bytes verbatim. -/

/-- Big-endian byte list of `v` in `w` bytes (most significant byte first). -/
def beBytes : Nat → Nat → List Nat
  | 0, _ => []
  | w + 1, v => beBytes w (v / 256) ++ [v % 256]

/-- The value denoted by a big-endian byte list. -/
def beVal (l : List Nat) : Nat := l.foldl (fun a b => a * 256 + b) 0

/-- `struct.pack` for an unsigned big-endian field of `w` bytes: defined
exactly when `0 ≤ v < 256 ^ w` (otherwise `struct.error` is raised and
nothing is written to the socket). -/
def structPack (w : Nat) (v : Int) : Option (List Nat) :=
  if 0 ≤ v ∧ v < (256 : Int) ^ w then some (beBytes w v.toNat) else none

/-- ircbot.py:926-929: the ack written after a chunk.  8 bytes when the
declared size is at least `1024*1024*1024*4` (= 2^32), else 4 bytes. -/
def sendAckBytes (size ackVal : Int) : Option (List Nat) :=
  if size ≥ 1024 * 1024 * 1024 * 4 then structPack 8 ackVal else structPack 4 ackVal

/-! ## Small helpers shared across the embedding -/

/-- Python's `str.lower()` restricted to ASCII (all strings the program
compares are ASCII). -/
def lowerAscii (s : String) : String := String.mk (s.toList.map Char.toLower)

/-- Python's `str.strip()` (whitespace at both ends). -/
def pyStrip (s : String) : String :=
  String.mk (((s.toList.dropWhile Char.isWhitespace).reverse.dropWhile
    Char.isWhitespace).reverse)

/-- `s.startswith(pre)`. -/
def strStartsWith (s pre : String) : Bool := pre.toList.isPrefixOf s.toList

/-- The suffix of `s` after its first `n` characters. -/
def strDrop (s : String) (n : Nat) : String := String.mk (s.toList.drop n)

/-- `d[k] = v` on an insertion-ordered dict embedded as an association
list: update in place when the key exists, append otherwise. -/
def setAssoc {α β : Type} [DecidableEq α] : List (α × β) → α → β → List (α × β)
  | [], k, v => [(k, v)]
  | (k', v') :: rest, k, v =>
    if k' = k then (k', v) :: rest else (k', v') :: setAssoc rest k v

/-- `d.get(k)` on an association list. -/
def getAssoc {α β : Type} [DecidableEq α] : List (α × β) → α → Option β
  | [], _ => none
  | (k', v') :: rest, k => if k' = k then some v' else getAssoc rest k

/-! ## Transfer records

The transfer dictionary built by `IRCBot.init_dcc_connection`
(ircbot.py:804-822) plus the keys added dynamically (`connected`, `error`,
`md5`).  `completed` is a Python truthiness value (`False`/`True` or a
completion timestamp); only its truthiness is ever branched on, so it is
embedded as `Bool`.  `peer_address` is `none` for records pre-registered
from an XDCC announcement PRIVMSG (ircbot.py:1056), which have no address
yet. -/

structure Transfer where
  id : Nat
  nick : String
  server : String
  peer_address : Option String
  peer_port : Int
  file_path : String
  filename : String
  start_time : Nat
  bytes_received : Int
  offset : Int
  size : Int
  ssl : Bool
  percent : Int
  last_progress_update : Nat
  last_progress_bytes_received : Int
  completed : Bool
  status : String
  error : Option String := none
  connected : Bool := false
  md5 : Option String := none
  deriving Repr, DecidableEq

/-! ## `IRCBot.on_dccmsg` (ircbot.py:843-929)

The handler for one inbound DCC data chunk.  The chunk itself only enters
through its length (counting, ack) and its MIME type as detected by
libmagic (`self.mime_checker.from_buffer(data)`), so the embedding takes
`chunkLen` and `chunkMime` as inputs; the file-write outcome (the
`try/except` around `open/write`) is the environment input `writeOk`. -/

structure MsgEnv where
  allowed_mimetypes : List String  -- `None`/empty list are both falsy: `[]` disables the check
  bot_channel_map : List (String × List String)
  now : Nat
  writeOk : Bool

structure DccOut where
  wrote : Option Nat        -- number of bytes appended to the local file, if any
  removed : Bool            -- deleted from `current_transfers`
  disconnected : Bool       -- `dcc.disconnect()` was called
  ack : Option (List Nat)   -- bytes written back to the peer (none: not reached or pack error)
  deriving Repr, DecidableEq

/-- ircbot.py:869-871 (also 964-966): refresh `joined_channels[channel]`
for every channel recorded for the peer in `bot_channel_map`. -/
def refreshJoined (bm : List (String × List String)) (nickLower : String) (now : Nat)
    (joined : List (String × Nat)) : List (String × Nat) :=
  match getAssoc bm nickLower with
  | some chans => chans.foldl (fun j c => setAssoc j c now) joined
  | none => joined

def onDccmsg (env : MsgEnv) (joined : List (String × Nat)) (t : Transfer)
    (chunkLen : Nat) (chunkMime : String) : Transfer × List (String × Nat) × DccOut :=
  -- ircbot.py:860-861
  let t := { t with connected := true, status := "in_progress" }
  -- every path that does not return early falls through to ircbot.py:924-929
  let tail := fun (t : Transfer) (j : List (String × Nat)) (wrote : Option Nat)
      (removed disconnected : Bool) =>
    let t := { t with bytes_received := t.bytes_received + chunkLen }
    (t, j, { wrote := wrote, removed := removed, disconnected := disconnected,
             ack := sendAckBytes t.size (t.bytes_received + t.offset) : DccOut })
  if t.completed then
    -- ircbot.py:865: data of a completed transfer is not written, only counted
    tail t joined none false false
  else
    let joined := refreshJoined env.bot_channel_map (lowerAscii t.nick) env.now joined
    -- ircbot.py:873-892 progress bookkeeping; `int(100 * x / size)` truncates,
    -- all quantities are non-negative here so `Int` division is exact
    let percent := 100 * (t.bytes_received + t.offset) / t.size
    let t :=
      if t.percent + 10 ≤ percent ∨ (env.now : Int) - (t.last_progress_update : Int) ≥ 5 then
        { t with percent := percent, last_progress_update := env.now,
                 last_progress_bytes_received := t.bytes_received }
      else t
    -- ircbot.py:894-908 MIME check on the first chunk of an un-resumed transfer
    if t.bytes_received = 0 ∧ t.offset = 0 ∧ env.allowed_mimetypes ≠ [] ∧
        chunkMime ∉ env.allowed_mimetypes then
      let t := { t with status := "error", error := some s!"Invalid MIME type ({chunkMime})",
                        connected := false }
      (t, joined, { wrote := none, removed := true, disconnected := true, ack := none })
    else if env.writeOk then
      -- ircbot.py:910-912 append chunk to the local file
      tail t joined (some chunkLen) false false
    else
      -- ircbot.py:913-922 write failure: error out, disconnect, drop from
      -- current_transfers — but no early return: the chunk is still counted
      -- and an ack is still attempted
      let t := { t with status := "error",
                        error := some s!"Error writing to file {t.file_path}",
                        connected := false }
      tail t joined none true true

/-! ## `IRCBot.is_valid_filename` (ircbot.py:488-522) -/

def invalidFilenameChars : List Char := ['/', '\\', ':', '*', '?', '"', '<', '>', '|']

/-- The regex `[/\\:\*?\"<>\|]` from ircbot.py:515. -/
def hasInvalidChar (f : String) : Bool := f.toList.any (fun c => c ∈ invalidFilenameChars)

/-- `os.path.join(path, filename)` for a directory path without a trailing
slash (the shape the application always passes). -/
def joinPath (path filename : String) : String := path ++ "/" ++ filename

/-- The last `"/"`-separated component dropped from an absolute path
(`os.path.normpath` resolution of a single `..`); `""` collapses to `"/"`. -/
def parentDir (p : String) : String :=
  let q := "/".intercalate ((p.splitOn "/").dropLast)
  if q = "" then "/" else q

/-- `os.path.abspath(os.path.join(path, filename))` for an absolute
normalized `path` and a `filename` free of path separators (the
separator-free precondition is established by the character check, which
the source performs first): only the components `"."` and `".."` are
interpreted. -/
def absJoin (path filename : String) : String :=
  if filename = "." then path
  else if filename = ".." then parentDir path
  else joinPath path filename

/-- ircbot.py:488-522: non-empty, no invalid characters, and the resolved
path must keep `path` as a string prefix. -/
def is_valid_filename (path filename : String) : Bool :=
  if filename = "" then false
  else if hasInvalidChar filename then false
  else strStartsWith (absJoin path filename) path

/-! ## `IRCBot.on_dcc_send` (ircbot.py:582-705)

The embedding starts after `shlex.split` of the CTCP payload has produced
the five fields and after the `int()` conversions have succeeded, i.e. the
offer carries the parsed values (parse failures only produce the same
"reject, no answer" outcome as the explicit gates).  The two address
branches (`ipaddress.ip_address` for names containing `":"`,
`irc.client.ip_numstr_to_quad` otherwise) are represented by their
outcome: `addrValid` (no `ValueError`) and `addrPrivate`
(`ipaddress.ip_address(...).is_private`), with `peer_address` the resulting
dotted/textual form.  The local filesystem is an association list from path
to file size (`os.path.exists` / `os.path.getsize`). -/

structure SendOffer where
  filename : String
  peer_address : String
  addrValid : Bool
  addrPrivate : Bool
  peer_port : Int
  size : Int
  deriving Repr, DecidableEq

structure SendCfg where
  download_path : String
  allow_private_ips : Bool
  incomplete_suffix : Option String  -- absent / empty string are both falsy: `none` disables
  max_file_size : Int
  deriving Repr, DecidableEq

/-- The outbound `ctcp_reply` of ircbot.py:685-687, in structured form:
`"DCC RESUME \"<filename with double quotes stripped>\" <port> <position>"`. -/
structure CtcpResume where
  nick : String
  filename : String
  port : Int
  position : Int
  deriving Repr, DecidableEq

/-- One element of `resume_queue[nick]`: the 9-tuple of ircbot.py:692-702. -/
structure ResumeEntry where
  peer_address : String
  peer_port : Int
  filename : String
  path : String
  size : Int
  offset : Int
  use_ssl : Bool
  completed : Bool
  requested_time : Nat
  deriving Repr, DecidableEq

/-- The arguments of the `init_dcc_connection` call at ircbot.py:705/580. -/
structure ConnectArgs where
  nick : String
  peer_address : String
  peer_port : Int
  filename : String
  download_path : String
  size : Int
  offset : Int
  use_ssl : Bool
  completed : Bool
  deriving Repr, DecidableEq

inductive SendResult where
  | reject (reason : String)
  | resume (ctcp : CtcpResume) (entry : ResumeEntry)
  | connect (args : ConnectArgs)
  deriving Repr, DecidableEq

/-- `filename.replace('"', "")` (ircbot.py:686). -/
def stripDoubleQuotes (s : String) : String := String.mk (s.toList.filter (· ≠ '"'))

/-- The `local_files` candidate list of ircbot.py:664-668: the plain download
path, plus the incomplete-suffix variant when a suffix is configured. -/
def sendLocalFiles (cfg : SendCfg) (filename : String) : List String :=
  let base := joinPath cfg.download_path filename
  match cfg.incomplete_suffix with
  | some suf => [base, base ++ suf]
  | none => [base]

/-- `local_download_path` after the `+=` of ircbot.py:668, i.e.
`local_files[-1]`: where a fresh download is stored. -/
def sendFinalPath (cfg : SendCfg) (filename : String) : String :=
  let base := joinPath cfg.download_path filename
  match cfg.incomplete_suffix with
  | some suf => base ++ suf
  | none => base

def onDccSend (cfg : SendCfg) (records : List Transfer) (fs : List (String × Nat))
    (nick : String) (offer : SendOffer) (use_ssl : Bool) (now : Nat) : SendResult :=
  if ¬ offer.addrValid then .reject "Invalid IP address"
  else if offer.addrPrivate ∧ ¬ cfg.allow_private_ips then .reject "Private IP address"
  else if ¬ is_valid_filename cfg.download_path offer.filename then
    .reject "file name contains invalid characters"
  else if offer.peer_port = 0 then .reject "Passive DCC transfers are not supported yet."
  else if offer.peer_port < 1 ∨ offer.peer_port > 65535 then
    .reject "Invalid DCC SEND command (invalid port)"
  else if offer.size < 1 then .reject "Invalid DCC SEND command (invalid size)"
  else if offer.size > cfg.max_file_size then .reject "File size exceeds limit"
  -- the second `size < 1` test at ircbot.py:654 is unreachable after the one above
  else if records.any (fun r => r.size = offer.size ∧ r.connected) then
    .reject "Download of file already in progress"
  else
    -- ircbot.py:672-703: the first existing candidate path returns from the loop
    match (sendLocalFiles cfg offer.filename).find? (fun p => (getAssoc fs p).isSome) with
    | some p =>
      let localSize : Int := ((getAssoc fs p).getD 0 : Nat)
      if localSize > offer.size then .reject "Local file larger then remote file"
      else
        let completed := localSize = offer.size
        let localSize := if localSize = offer.size then localSize - 4096 else localSize
        .resume
          { nick := nick, filename := stripDoubleQuotes offer.filename,
            port := offer.peer_port, position := localSize }
          { peer_address := offer.peer_address, peer_port := offer.peer_port,
            filename := offer.filename, path := p, size := offer.size,
            offset := localSize, use_ssl := use_ssl, completed := completed,
            requested_time := now }
    | none =>
      -- no candidate exists: `local_size` is still 0 and `completed` still False
      .connect
        { nick := nick, peer_address := offer.peer_address, peer_port := offer.peer_port,
          filename := offer.filename, download_path := sendFinalPath cfg offer.filename,
          size := offer.size, offset := 0, use_ssl := use_ssl, completed := false }

/-! ## `IRCBot.on_dcc_accept` (ircbot.py:524-580) -/

/-- Remove the first element satisfying `p` (Python's
`for item in lst: if match: lst.remove(item); break` — `list.remove`
deletes the first element *equal* to `item`, and any earlier equal element
would itself have matched first, so this is the same element). -/
def removeFirst {α : Type} (p : α → Bool) : List α → List α
  | [] => []
  | x :: xs => if p x then xs else x :: removeFirst p xs

/-- `del d[k]` on an association list. -/
def eraseAssoc {α β : Type} [DecidableEq α] : List (α × β) → α → List (α × β)
  | [], _ => []
  | (k', v') :: rest, k => if k' = k then rest else (k', v') :: eraseAssoc rest k

structure AcceptResult where
  resume_queue : List (String × List ResumeEntry)
  connect : Option ConnectArgs
  deriving Repr, DecidableEq

/-- A queue item matches an ACCEPT when port and resume position agree
exactly (ircbot.py:567-568). -/
def acceptMatches (peerPort resumePos : Nat) (item : ResumeEntry) : Bool :=
  ((peerPort : Int) == item.peer_port) && ((resumePos : Int) == item.offset)

/-- The handler takes the result of `re.search(r"(\d+) (\d+)$", args)` as
`parsed` (two non-negative integers, or `none` when the regex fails; the
`except ValueError` around `int()` is unreachable for `\d+` captures).  The
unknown-nick early return happens first; the port / resume-position gates
run before the queue contents are scanned. -/
def onDccAccept (rq : List (String × List ResumeEntry)) (nick : String)
    (parsed : Option (Nat × Nat)) : AcceptResult :=
  match getAssoc rq nick with
  | none => { resume_queue := rq, connect := none }
  | some queue =>
    match parsed with
    | none => { resume_queue := rq, connect := none }
    | some (peerPort, resumePos) =>
      if peerPort < 1024 ∨ peerPort > 65535 then { resume_queue := rq, connect := none }
      else if resumePos < 1 then { resume_queue := rq, connect := none }
      else
        match queue.find? (acceptMatches peerPort resumePos) with
        | none => { resume_queue := rq, connect := none }
        | some item =>
          let queue' := removeFirst (acceptMatches peerPort resumePos) queue
          -- ircbot.py:577-578: drop the key when its list became empty
          let rq' := if queue'.isEmpty then eraseAssoc rq nick else setAssoc rq nick queue'
          { resume_queue := rq',
            connect := some
              { nick := nick, peer_address := item.peer_address,
                peer_port := (peerPort : Int), filename := item.filename,
                download_path := item.path, size := item.size,
                offset := (resumePos : Int), use_ssl := item.use_ssl,
                completed := item.completed } }

/-! ## `IRCBotManager.cancel_transfer` (manager.py:52-88)

Transfer dictionaries are shared by reference between a session's
`current_transfers` and the manager's `transfers` history; the embedding
realises the sharing through a store of records indexed by id, both maps
holding ids. -/

structure MgrState where
  store : List (Nat × Transfer)
  bots : List (String × List (Nat × Nat))  -- server → current_transfers (dcc id → record id)
  history : List (String × List Nat)       -- manager.transfers: filename → record ids
  deriving Repr, DecidableEq

def updateStore : List (Nat × Transfer) → Nat → (Transfer → Transfer) →
    List (Nat × Transfer)
  | [], _, _ => []
  | (k, t) :: rest, tid, f =>
    (if k = tid then (k, f t) else (k, t)) :: updateStore rest tid f

/-- manager.py:64: the match on `(filename, status == "in_progress", nick)`. -/
def cancelMatch (t : Transfer) (nick filename : String) : Bool :=
  t.filename == filename && t.status == "in_progress" && t.nick == nick

/-- First `(dcc, transfer)` pair of `bot.current_transfers` that matches. -/
def findCancelTarget (store : List (Nat × Transfer)) (current : List (Nat × Nat))
    (nick filename : String) : Option (Nat × Nat) :=
  current.find? (fun dt =>
    match getAssoc store dt.2 with
    | some t => cancelMatch t nick filename
    | none => false)

def cancelled (t : Transfer) : Transfer :=
  { t with status := "cancelled", error := some "Cancelled by user", connected := false }

/-- One step of the history sweep at manager.py:82-86: a history record for
this filename that is still `in_progress` for the same server and nick is
flipped to cancelled. -/
def cancelHistoryStep (server nick : String) (s : List (Nat × Transfer)) (tid : Nat) :
    List (Nat × Transfer) :=
  match getAssoc s tid with
  | some t =>
    if t.server == server && t.status == "in_progress" && t.nick == nick then
      updateStore s tid cancelled
    else s
  | none => s

/-- Returns (result, new state, `dcc.disconnect` calls as (dcc id, reason)). -/
def cancelTransfer (st : MgrState) (server nick filename : String) :
    Bool × MgrState × List (Nat × String) :=
  match getAssoc st.bots server with
  | none => (false, st, [])
  | some current =>
    match findCancelTarget st.store current nick filename with
    | none => (false, st, [])
    | some dt =>
      -- manager.py:65-79: disconnect, flip the shared record, drop the dcc key
      let store := updateStore st.store dt.2 cancelled
      let bots := setAssoc st.bots server (eraseAssoc current dt.1)
      -- manager.py:81-86: sweep the history list for this filename; the record
      -- just cancelled already reads "cancelled" through the shared store, as
      -- in Python where it is the same dict
      let store := ((getAssoc st.history filename).getD []).foldl
        (cancelHistoryStep server nick) store
      (true, { st with store := store, bots := bots }, [(dt.1, "Cancelled by user")])

/-! ## Command queue consumer (`IRCBot.process_command_queue`, ircbot.py:340-362)

One iteration of the consumer loop, acting on a dequeued command.  The IRC
traffic a command produces is returned as a list of actions; the 10 × 1 s
join-wait loop of `_join_channels` (ircbot.py:267-277) only reads
`joined_channels` and logs, so it contributes no actions and no state
change. -/

inductive IrcAction where
  | join (channel : String)
  | part (channel : String) (reason : String)
  | privmsg (target : String) (message : String)
  deriving Repr, DecidableEq

structure Command where
  command : String
  user : Option String := none
  message : Option String := none
  channels : List String := []
  reason : Option String := none
  deriving Repr, DecidableEq

structure BotState where
  joined_channels : List (String × Nat)
  bot_channel_map : List (String × List String)
  last_active : Nat
  deriving Repr, DecidableEq

/-- `IRCBot.join_channel` (ircbot.py:192-206): no-op for an empty name or an
already-joined channel, otherwise a single JOIN (membership is only recorded
later, by the server's JOIN echo). -/
def joinChannelActions (joined : List (String × Nat)) (channel : String) : List IrcAction :=
  if channel = "" ∨ (getAssoc joined channel).isSome then [] else [.join channel]

/-- `IRCBot._join_channels` (ircbot.py:251-265): each listed channel, then its
`also_join` companions. -/
def joinChannelsActions (alsoJoin : List (String × List String))
    (joined : List (String × Nat)) (channels : List String) : List IrcAction :=
  channels.foldl (fun acc c =>
    acc ++ joinChannelActions joined c ++
      (match getAssoc alsoJoin c with
       | some comps => comps.foldl (fun a cc => a ++ joinChannelActions joined cc) []
       | none => [])) []

/-- `IRCBot._update_channel_mapping` (ircbot.py:279-294): merge the channels
into `bot_channel_map[user]` and refresh `joined_channels[channel] = now`
for every channel now mapped to the user. -/
def updateChannelMapping (bot : BotState) (user : String) (channels : List String)
    (now : Nat) : BotState :=
  let merged := match getAssoc bot.bot_channel_map user with
    | some old => old ++ channels.filter (fun c => c ∉ old)
    | none => channels
  let joined := merged.foldl (fun j c => setAssoc j c now) bot.joined_channels
  { bot with bot_channel_map := setAssoc bot.bot_channel_map user merged,
             joined_channels := joined }

/-- `IRCBot._handle_send_command` (ircbot.py:296-325).  A missing *or empty*
user or message aborts (`if not data.get("user") or not data.get("message")`). -/
def handleSendCommand (alsoJoin : List (String × List String)) (now : Nat)
    (bot : BotState) (data : Command) : BotState × List IrcAction :=
  let userOk := match data.user with | some u => u ≠ "" | none => false
  let msgOk := match data.message with | some m => m ≠ "" | none => false
  if ¬(userOk && msgOk) then (bot, [])
  else
    let user := data.user.getD ""
    let message := data.message.getD ""
    let joins := if data.channels ≠ [] then
        joinChannelsActions alsoJoin bot.joined_channels data.channels
      else []
    let bot := if data.channels ≠ [] then
        updateChannelMapping bot user data.channels now
      else bot
    (bot, joins ++ [.privmsg user message])

/-- `IRCBot.part_channel` (ircbot.py:208-223): only parts channels currently
joined; updates `last_active` and removes the channel. -/
def partChannel (now : Nat) (bot : BotState) (channel : String) (reason : Option String) :
    BotState × List IrcAction :=
  if (getAssoc bot.joined_channels channel).isSome then
    ({ bot with joined_channels := eraseAssoc bot.joined_channels channel,
                last_active := now },
     [.part channel (reason.getD "")])
  else (bot, [])

/-- `IRCBot._handle_part_command` (ircbot.py:327-338). -/
def handlePartCommand (now : Nat) (bot : BotState) (data : Command) :
    BotState × List IrcAction :=
  data.channels.foldl (fun (acc : BotState × List IrcAction) c =>
    let (b, as_) := partChannel now acc.1 c data.reason
    (b, acc.2 ++ as_)) (bot, [])

/-- One iteration of the consumer loop (ircbot.py:352-362): refresh
`last_active`, then dispatch on `data["command"]` — only `"send"` and
`"part"` have branches; every other command type, `"join"` included, falls
through with no effect. -/
def processCommandStep (alsoJoin : List (String × List String)) (now : Nat)
    (bot : BotState) (data : Command) : BotState × List IrcAction :=
  let bot := { bot with last_active := now }
  if data.command = "send" then handleSendCommand alsoJoin now bot data
  else if data.command = "part" then handlePartCommand now bot data
  else (bot, [])

/-! ## Outbound `xdcc send`/`xdcc batch` rewrite (`IRCBotAPI.msg`, app.py:593-620) -/

/-- `re.match(r"^xdcc (send|batch) ", message, re.I)` — a case-insensitive
prefix test (app.py:610). -/
def matchXdccCI (m : String) : Bool :=
  strStartsWith (lowerAscii m) "xdcc send " || strStartsWith (lowerAscii m) "xdcc batch "

/-- `re.sub(r"^xdcc (send|batch) ", r"xdcc s\1 ", message, re.I)`
(app.py:612).  `re.sub`'s fourth positional parameter is `count`, not
`flags`, so `re.I` (= 2) caps the number of replacements at 2 and the
substitution itself runs *case-sensitively* (and the `^` anchor makes a
second replacement impossible anyway): only the exact lowercase prefixes
are rewritten. -/
def subXdccCaseSensitive (m : String) : String :=
  if strStartsWith m "xdcc send " then "xdcc ssend " ++ strDrop m 10
  else if strStartsWith m "xdcc batch " then "xdcc sbatch " ++ strDrop m 11
  else m

/-- app.py:604-611: rewrite applies when a destination channel is in the
session's `rewrite_to_ssend` list or the (lowercased, stripped) target user
is in the global `ssend_map`. -/
def rewriteApplies (rewriteToSsend ssendMap : List String) (user : String)
    (channels : List String) : Bool :=
  channels.any (fun c => c ∈ rewriteToSsend) || (pyStrip (lowerAscii user)) ∈ ssendMap

/-- The message the `/msg` endpoint queues for sending (app.py:604-619):
conditionally rewritten, then `str.strip`-ped. -/
def msgOutgoing (rewriteToSsend ssendMap : List String) (user message : String)
    (channels : List String) : String :=
  let message :=
    if message ≠ "" ∧ rewriteApplies rewriteToSsend ssendMap user channels = true ∧
        matchXdccCI message = true then
      subXdccCaseSensitive message
    else message
  pyStrip message

/-! ## Periodic cleanup (`IRCBot.cleanup` ircbot.py:1065-1093,
`IRCBotManager._cleanup_bots` manager.py:161-186) -/

structure CleanState where
  joined_channels : List (String × Nat)
  resume_queue : List (String × List ResumeEntry)
  last_active : Nat
  deriving Repr, DecidableEq

/-- `IRCBot.cleanup(channel_idle_timeout, resume_timeout)`: part channels
whose last activity is more than `channelIdleTimeout` seconds old (skipped
entirely when the timeout is falsy, i.e. 0), then drop resume-queue entries
older than `resumeTimeout` (empty per-nick lists are kept). -/
def botCleanup (channelIdleTimeout resumeTimeout now : Nat) (s : CleanState) :
    CleanState × List IrcAction :=
  let isIdle := fun (cl : String × Nat) =>
    channelIdleTimeout ≠ 0 ∧ (now : Int) - (cl.2 : Int) > (channelIdleTimeout : Int)
  let idle := (s.joined_channels.filter (fun cl => isIdle cl)).map Prod.fst
  let joined := s.joined_channels.filter (fun cl => ¬ isIdle cl)
  let lastActive := if idle.isEmpty then s.last_active else now
  let rq := s.resume_queue.map (fun nq =>
    (nq.1, nq.2.filter (fun it => ¬ ((now : Int) - (it.requested_time : Int) > (resumeTimeout : Int)))))
  ({ joined_channels := joined, resume_queue := rq, last_active := lastActive },
   idle.map (fun c => IrcAction.part c "Idle timeout"))

structure MgrBot where
  cleanState : CleanState
  current_empty : Bool   -- `not bot.current_transfers`
  queue_empty : Bool     -- `bot.command_queue.empty()`
  deriving Repr, DecidableEq

structure CleanupMgr where
  bots : List (String × MgrBot)
  server_idle_timeout : Nat
  channel_idle_timeout : Nat  -- set in `__init__` (manager.py:46) but never read by the cleanup
  resume_timeout : Nat
  deriving Repr, DecidableEq

/-- Which bots the idle sweep disconnects (manager.py:171-180). -/
def serverIsIdle (m : CleanupMgr) (now : Nat) (b : MgrBot) : Bool :=
  b.cleanState.joined_channels.isEmpty && b.current_empty && b.queue_empty &&
    decide (m.server_idle_timeout > 0) &&
    decide ((b.cleanState.last_active : Int) + (m.server_idle_timeout : Int) < (now : Int))

/-- `IRCBotManager._cleanup_bots`: idle servers are disconnected with
"Idle timeout" and dropped; every other bot is delegated to
`bot.cleanup(self.server_idle_timeout, self.resume_timeout)`
(manager.py:182) — note the first argument passed where `cleanup` expects
`channel_idle_timeout`. -/
def managerCleanupBots (m : CleanupMgr) (now : Nat) :
    CleanupMgr × List (String × String) × List IrcAction :=
  let stepped := m.bots.map (fun sb =>
    if serverIsIdle m now sb.2 then (sb.1, sb.2, true, ([] : List IrcAction))
    else
      let (cs, acts) := botCleanup m.server_idle_timeout m.resume_timeout now sb.2.cleanState
      (sb.1, { sb.2 with cleanState := cs }, false, acts))
  let bots := (stepped.filter (fun x => ¬ x.2.2.1)).map (fun x => (x.1, x.2.1))
  let disconnects := (stepped.filter (fun x => x.2.2.1)).map (fun x => (x.1, "Idle timeout"))
  let actions := stepped.foldl (fun acc x => acc ++ x.2.2.2) []
  ({ m with bots := bots }, disconnects, actions)

/-! ## A one-session system executor

Ties `on_dcc_send`, `init_dcc_connection` (ircbot.py:751-841) and
`on_dccmsg` together over a shared record store, to run whole operation
sequences.  Fresh record and DCC-socket handles are drawn from a single
counter (they live in disjoint namespaces). -/

structure SysEnv where
  server : String
  cfg : SendCfg
  allowed_mimetypes : List String
  deriving Repr, DecidableEq

structure SysState where
  store : List (Nat × Transfer)
  current : List (Nat × Nat)            -- dcc handle → record id
  history : List (String × List Nat)    -- manager.transfers
  resume_queue : List (String × List ResumeEntry)
  fs : List (String × Nat)
  joined_channels : List (String × Nat)
  bot_channel_map : List (String × List String)
  nextId : Nat
  deriving Repr, DecidableEq

def emptySysState : SysState :=
  { store := [], current := [], history := [], resume_queue := [], fs := [],
    joined_channels := [], bot_channel_map := [], nextId := 0 }

/-- `IRCBot.init_dcc_connection` (ircbot.py:751-841): build the transfer
dict, reconcile with a pre-registered announcement record for the same
filename/nick/server from the last 30 s (ircbot.py:826-830, keyed on
`peer_address is None`) or append a new record (ircbot.py:831-836), and
register the DCC handle in `current_transfers`. -/
def initDccConnection (env : SysEnv) (now : Nat) (st : SysState) (a : ConnectArgs) :
    SysState :=
  let item : Transfer :=
    { id := st.nextId, nick := a.nick, server := env.server,
      peer_address := some a.peer_address, peer_port := a.peer_port,
      file_path := a.download_path, filename := a.filename, start_time := now,
      bytes_received := 0, offset := a.offset, size := a.size, ssl := a.use_ssl,
      percent := 0, last_progress_update := 0, last_progress_bytes_received := 0,
      completed := a.completed, status := "started" }
  let ids := (getAssoc st.history a.filename).getD []
  let dccId := st.nextId
  match ids.find? (fun tid =>
      match getAssoc st.store tid with
      | some t => t.peer_address == none &&
          decide ((t.start_time : Int) ≥ (now : Int) - 30) &&
          t.nick == a.nick && t.server == env.server
      | none => false) with
  | some tid =>
    -- `item.update(transfer_item)`: every key of the fresh dict overwrites;
    -- keys only the old dict has (md5, error, connected) survive
    let store := updateStore st.store tid
      (fun old => { item with md5 := old.md5, error := old.error, connected := old.connected })
    { st with store := store, current := st.current ++ [(dccId, tid)],
              nextId := st.nextId + 1 }
  | none =>
    { st with store := st.store ++ [(st.nextId, item)],
              history := setAssoc st.history a.filename (ids ++ [st.nextId]),
              current := st.current ++ [(dccId, st.nextId)],
              nextId := st.nextId + 1 }

/-- The history records for a filename, read through the store. -/
def historyRecords (st : SysState) (filename : String) : List Transfer :=
  ((getAssoc st.history filename).getD []).filterMap (fun tid => getAssoc st.store tid)

inductive SysOp where
  | send (nick : String) (offer : SendOffer) (use_ssl : Bool) (now : Nat)
  | dccMsg (dccId : Nat) (chunkLen : Nat) (chunkMime : String) (writeOk : Bool) (now : Nat)
  deriving Repr, DecidableEq

def sysStep (env : SysEnv) (st : SysState) : SysOp → SysState
  | .send nick offer use_ssl now =>
    match onDccSend env.cfg (historyRecords st offer.filename) st.fs nick offer use_ssl now with
    | .reject _ => st
    | .resume _ entry =>
      let q := (getAssoc st.resume_queue nick).getD []
      { st with resume_queue := setAssoc st.resume_queue nick (q ++ [entry]) }
    | .connect args => initDccConnection env now st args
  | .dccMsg dccId chunkLen chunkMime writeOk now =>
    match getAssoc st.current dccId with
    | none => st   -- ircbot.py:855-857: unknown connection, ignored
    | some tid =>
      match getAssoc st.store tid with
      | none => st  -- unreachable: current_transfers values are live dicts
      | some t =>
        let (t', joined', out) :=
          onDccmsg { allowed_mimetypes := env.allowed_mimetypes,
                     bot_channel_map := st.bot_channel_map, now := now,
                     writeOk := writeOk } st.joined_channels t chunkLen chunkMime
        let fs := match out.wrote with
          | some n => setAssoc st.fs t.file_path ((getAssoc st.fs t.file_path).getD 0 + n)
          | none => st.fs
        { st with store := updateStore st.store tid (fun _ => t'),
                  joined_channels := joined',
                  fs := fs,
                  current := if out.removed then eraseAssoc st.current dccId else st.current }

def sysRun (env : SysEnv) (st : SysState) (ops : List SysOp) : SysState :=
  ops.foldl (sysStep env) st

theorem beBytes_length (w v : Nat) : (beBytes w v).length = w := by
  induction w generalizing v with
  | zero => simp [beBytes]
  | succ n ih => simp [beBytes, ih]

theorem beVal_append (l : List Nat) (b : Nat) :
    beVal (l ++ [b]) = beVal l * 256 + b := by
  simp [beVal, List.foldl_append]

theorem beVal_beBytes (w v : Nat) (h : v < 256 ^ w) : beVal (beBytes w v) = v := by
  induction w generalizing v with
  | zero =>
    simp [beBytes, beVal]
    omega
  | succ n ih =>
    rw [beBytes, beVal_append, ih (v / 256) (by
      have : 256 ^ (n + 1) = 256 ^ n * 256 := by ring
      omega)]
    omega

theorem structPack_spec (w : Nat) (v : Int) (h0 : 0 ≤ v) (h : v < (256 : Int) ^ w) :
    ∃ l, structPack w v = some l ∧ l.length = w ∧ (beVal l : Int) = v := by
  refine ⟨beBytes w v.toNat, ?_, ?_, ?_⟩
  · simp [structPack, h0, h]
  · exact beBytes_length w v.toNat
  · rw [beVal_beBytes w v.toNat ((Int.toNat_lt' (by positivity)).mpr (by exact_mod_cast h))]
    exact Int.toNat_of_nonneg h0

theorem sendAckBytes_spec (size v : Int) (h0 : 0 ≤ v)
    (h32 : size < 1024 * 1024 * 1024 * 4 → v < 2 ^ 32) (h64 : v < 2 ^ 64) :
    ∃ l, sendAckBytes size v = some l ∧
      l.length = (if size ≥ 1024 * 1024 * 1024 * 4 then 8 else 4) ∧
      (beVal l : Int) = v := by
  unfold sendAckBytes
  by_cases hs : size ≥ 1024 * 1024 * 1024 * 4
  · simp only [hs, if_true]
    exact structPack_spec 8 v h0 (by norm_num; omega)
  · simp only [hs, if_false]
    have := h32 (by omega)
    exact structPack_spec 4 v h0 (by norm_num; omega)

/-! ## Association-list lemmas -/

theorem getAssoc_setAssoc_self {α β : Type} [DecidableEq α]
    (l : List (α × β)) (k : α) (v : β) : getAssoc (setAssoc l k v) k = some v := by
  induction l with
  | nil => simp [setAssoc, getAssoc]
  | cons kv rest ih =>
    obtain ⟨a, b⟩ := kv
    by_cases h : a = k
    · simp [setAssoc, getAssoc, h]
    · simp [setAssoc, getAssoc, h, ih]

theorem getAssoc_setAssoc_ne {α β : Type} [DecidableEq α]
    (l : List (α × β)) (k k' : α) (v : β) (h : k ≠ k') :
    getAssoc (setAssoc l k' v) k = getAssoc l k := by
  have h' : k' ≠ k := Ne.symm h
  induction l with
  | nil => simp [setAssoc, getAssoc, h']
  | cons kv rest ih =>
    obtain ⟨a, b⟩ := kv
    by_cases h1 : a = k'
    · subst h1
      simp [setAssoc, getAssoc, h']
    · by_cases h2 : a = k
      · simp [setAssoc, getAssoc, h1, h2, h]
      · simp [setAssoc, getAssoc, h1, h2, ih]

theorem getAssoc_eraseAssoc_ne {α β : Type} [DecidableEq α]
    (l : List (α × β)) (k k' : α) (h : k ≠ k') :
    getAssoc (eraseAssoc l k') k = getAssoc l k := by
  have h' : k' ≠ k := Ne.symm h
  induction l with
  | nil => simp [eraseAssoc]
  | cons kv rest ih =>
    obtain ⟨a, b⟩ := kv
    by_cases h1 : a = k'
    · subst h1
      simp [eraseAssoc, getAssoc, h']
    · by_cases h2 : a = k
      · simp [eraseAssoc, getAssoc, h1, h2, h]
      · simp [eraseAssoc, getAssoc, h1, h2, ih]

theorem mem_removeFirst {α : Type} (p : α → Bool) (l : List α) (a : α)
    (ha : a ∈ l) (hp : p a = false) : a ∈ removeFirst p l := by
  induction l with
  | nil => simp at ha
  | cons x xs ih =>
    by_cases hx : p x
    · simp only [removeFirst, hx, if_true]
      rcases List.mem_cons.mp ha with rfl | h
      · rw [hp] at hx; exact absurd hx (by simp)
      · exact h
    · simp only [removeFirst, hx, if_false]
      rcases List.mem_cons.mp ha with rfl | h
      · exact List.mem_cons_self _ _
      · exact List.mem_cons_of_mem _ (ih h)

theorem getAssoc_updateStore_self (s : List (Nat × Transfer)) (tid : Nat)
    (f : Transfer → Transfer) :
    getAssoc (updateStore s tid f) tid = (getAssoc s tid).map f := by
  induction s with
  | nil => simp [updateStore, getAssoc]
  | cons kv rest ih =>
    obtain ⟨a, b⟩ := kv
    simp only [updateStore]
    by_cases h : a = tid
    · rw [if_pos h]
      subst h
      simp [getAssoc, ih]
    · rw [if_neg h]
      simp [getAssoc, h, ih]

theorem getAssoc_updateStore_ne (s : List (Nat × Transfer)) (tid k : Nat)
    (f : Transfer → Transfer) (h : k ≠ tid) :
    getAssoc (updateStore s tid f) k = getAssoc s k := by
  have h' : tid ≠ k := Ne.symm h
  induction s with
  | nil => simp [updateStore, getAssoc]
  | cons kv rest ih =>
    obtain ⟨a, b⟩ := kv
    simp only [updateStore]
    by_cases h1 : a = tid
    · rw [if_pos h1]
      subst h1
      simp [getAssoc, h', ih]
    · rw [if_neg h1]
      by_cases h2 : a = k
      · simp [getAssoc, h2]
      · simp [getAssoc, h1, h2, ih]

/-! ## Claim C2: bytes bound and completed-transfer behaviour -/

/-- Helper: on every path that reaches the ack (ircbot.py:924-929), the ack
bytes are `sendAckBytes` of the declared size and the cumulative count after
the chunk. -/
theorem onDccmsg_ack_eq (env : MsgEnv) (joined : List (String × Nat)) (t : Transfer)
    (chunkLen : Nat) (mime : String)
    (hnr : t.completed = true ∨
      ¬(t.bytes_received = 0 ∧ t.offset = 0 ∧ env.allowed_mimetypes ≠ [] ∧
        mime ∉ env.allowed_mimetypes)) :
    (onDccmsg env joined t chunkLen mime).2.2.ack =
      sendAckBytes t.size (t.bytes_received + chunkLen + t.offset) := by
  unfold onDccmsg
  by_cases hc : t.completed
  · simp [hc]
  · rcases hnr with hcc | hm
    · exact absurd hcc hc
    simp only [hc, if_false, Bool.false_eq_true]
    split <;> split <;>
      first
        | (next hcond => exact absurd (by simpa using hcond) hm)
        | simp

/-- C2 (amended): after a chunk, `bytes_received + offset ≤ size` holds
*provided the cumulative bytes delivered stay within the declared size* —
the handler itself never enforces the bound; and once `completed` is true
no bytes are written to the local file (the chunk is still counted). -/
theorem c2_bytes_bound_and_completed_no_write (env : MsgEnv)
    (joined : List (String × Nat)) (t : Transfer) (chunkLen : Nat) (mime : String)
    (hbound : t.bytes_received + chunkLen + t.offset ≤ t.size) :
    ((onDccmsg env joined t chunkLen mime).1.bytes_received +
        (onDccmsg env joined t chunkLen mime).1.offset ≤ t.size) ∧
      (t.completed = true → (onDccmsg env joined t chunkLen mime).2.2.wrote = none) := by
  unfold onDccmsg
  by_cases hc : t.completed
  · simp [hc]
    omega
  · simp only [hc, if_false, Bool.false_eq_true]
    constructor
    · split <;> split <;> (try split) <;> simp <;> omega
    · exact fun hcc => hcc.elim

def c2Env : MsgEnv :=
  { allowed_mimetypes := [], bot_channel_map := [], now := 5, writeOk := true }

def c2T : Transfer :=
  { id := 0, nick := "bob", server := "srv", peer_address := some "1.2.3.4",
    peer_port := 5000, file_path := "/dl/f", filename := "f", start_time := 0,
    bytes_received := 0, offset := 0, size := 10, ssl := false, percent := 0,
    last_progress_update := 0, last_progress_bytes_received := 0,
    completed := false, status := "started" }

/-- C2 (counterexample): a transfer of declared size 10 fed a single 11-byte
chunk ends with `bytes_received + offset = 11 > 10`; the handler counts and
acks every delivered byte without ever checking the declared size. -/
theorem c2_counterexample :
    (onDccmsg c2Env [] c2T 11 "m").1.bytes_received +
      (onDccmsg c2Env [] c2T 11 "m").1.offset > c2T.size := by decide

/-- C2 (witness for the amended theorem). -/
theorem c2_witness :
    ((onDccmsg c2Env [] c2T 7 "m").1.bytes_received +
        (onDccmsg c2Env [] c2T 7 "m").1.offset ≤ c2T.size) ∧
      (c2T.completed = true → (onDccmsg c2Env [] c2T 7 "m").2.2.wrote = none) :=
  c2_bytes_bound_and_completed_no_write c2Env [] c2T 7 "m" (by decide)

/-! ## Claim C4: ack width and value -/

/-- C4: the acknowledgement written after a chunk is the big-endian unsigned
encoding of `bytes_received + offset` (cumulative, inclusive of the resume
offset), in 8 bytes when the declared size is at least 2³² (= 4 GiB) and in
4 bytes otherwise.  The hypotheses exclude the MIME-reject early return
(where nothing is acked) and require the value to fit the chosen width
(otherwise `struct.pack` raises and nothing is written). -/
theorem c4_ack_is_cumulative_big_endian (env : MsgEnv)
    (joined : List (String × Nat)) (t : Transfer) (chunkLen : Nat) (mime : String)
    (hnr : t.completed = true ∨
      ¬(t.bytes_received = 0 ∧ t.offset = 0 ∧ env.allowed_mimetypes ≠ [] ∧
        mime ∉ env.allowed_mimetypes))
    (h0 : 0 ≤ t.bytes_received + chunkLen + t.offset)
    (h32 : t.size < 1024 * 1024 * 1024 * 4 →
      t.bytes_received + chunkLen + t.offset < 2 ^ 32)
    (h64 : t.bytes_received + chunkLen + t.offset < 2 ^ 64) :
    ∃ l, (onDccmsg env joined t chunkLen mime).2.2.ack = some l ∧
      l.length = (if t.size ≥ 1024 * 1024 * 1024 * 4 then 8 else 4) ∧
      (beVal l : Int) = t.bytes_received + chunkLen + t.offset := by
  rw [onDccmsg_ack_eq env joined t chunkLen mime hnr]
  exact sendAckBytes_spec t.size (t.bytes_received + chunkLen + t.offset) h0 h32 h64

def c4T : Transfer := { c2T with bytes_received := 2, offset := 3, size := 100 }

/-- C4 (witness). -/
theorem c4_witness :
    ∃ l, (onDccmsg c2Env [] c4T 4 "m").2.2.ack = some l ∧
      l.length = (if c4T.size ≥ 1024 * 1024 * 1024 * 4 then 8 else 4) ∧
      (beVal l : Int) = c4T.bytes_received + (4 : Nat) + c4T.offset :=
  c4_ack_is_cumulative_big_endian c2Env [] c4T 4 "m" (Or.inr (by decide))
    (by decide) (by decide) (by decide)

/-! ## Claim C1: the consumer's handling of `join` commands -/

/-- C1 (code bug): the command-queue consumer dispatches only on `"send"`
and `"part"` (ircbot.py:359-362); a dequeued `"join"` command — the very
kind the `/join` endpoint enqueues (app.py:547) — only refreshes
`last_active` and produces no IRC traffic at all: no JOIN is issued, no
companion channels are joined, and `joined_channels` is never polled. -/
theorem c1_join_command_ignored (alsoJoin : List (String × List String)) (now : Nat)
    (bot : BotState) (data : Command) (h : data.command = "join") :
    processCommandStep alsoJoin now bot data = ({ bot with last_active := now }, []) := by
  unfold processCommandStep
  rw [h]
  simp

/-- C1 (witness). -/
theorem c1_join_command_ignored_witness :
    processCommandStep [] 50
        { joined_channels := [], bot_channel_map := [], last_active := 0 }
        { command := "join", channels := ["#test"] } =
      ({ joined_channels := [], bot_channel_map := [], last_active := 50 }, []) :=
  c1_join_command_ignored [] 50
    { joined_channels := [], bot_channel_map := [], last_active := 0 }
    { command := "join", channels := ["#test"] } rfl

/-! ## Claim C3: case sensitivity of the ssend rewrite -/

/-- C3 (code bug): for the message `"XDCC SEND #1"` with the target user in
`ssend_map`, the guard `re.match(..., re.I)` matches and the rewrite is
supposed to apply, yet the message is queued unchanged — it does not start
with `"xdcc ssend "` — because `re.sub(pattern, repl, string, re.I)` passes
`re.I` as the `count` argument, making the substitution case-sensitive. -/
theorem c3_uppercase_message_not_rewritten :
    matchXdccCI "XDCC SEND #1" = true ∧
    rewriteApplies [] ["bot"] "bot" [] = true ∧
    msgOutgoing [] ["bot"] "bot" "XDCC SEND #1" [] = "XDCC SEND #1" ∧
    strStartsWith "XDCC SEND #1" "xdcc ssend " = false ∧
    msgOutgoing [] ["bot"] "bot" "xdcc send #1" [] = "xdcc ssend #1" := by decide

/-! ## Claim C9: which timeout the cleanup loop applies to channels -/

def c9Clean : CleanState :=
  { joined_channels := [("#c", 1000)], resume_queue := [], last_active := 1100 }

def c9Mgr : CleanupMgr :=
  { bots := [("srv", { cleanState := c9Clean, current_empty := true, queue_empty := true })],
    server_idle_timeout := 1800, channel_idle_timeout := 60, resume_timeout := 30 }

/-- C9 (code bug): with `channel_idle_timeout = 60` and a channel idle for
200 s (joined at 1000, now 1200), the manager's periodic cleanup parts
nothing — `_cleanup_bots` hands `bot.cleanup` the *server* idle timeout
(1800) where the channel idle timeout belongs (manager.py:182) — while the
per-session cleanup, given the configured `channel_idle_timeout`, parts the
channel with "Idle timeout" exactly as the claim describes. -/
theorem c9_cleanup_passes_server_timeout :
    managerCleanupBots c9Mgr 1200 = (c9Mgr, [], []) ∧
    botCleanup c9Mgr.channel_idle_timeout c9Mgr.resume_timeout 1200 c9Clean =
      ({ joined_channels := [], resume_queue := [], last_active := 1200 },
       [.part "#c" "Idle timeout"]) := by decide

/-! ## Claim C5: cancel_transfer -/

/-- Helper: the history sweep of manager.py:81-86 never touches a record
that is not `in_progress`; in particular the record just cancelled stays
exactly as written. -/
theorem cancelHistoryFold_preserves (server nick : String) (ids : List Nat)
    (store : List (Nat × Transfer)) (k : Nat) (u : Transfer)
    (hk : getAssoc store k = some u) (hu : u.status ≠ "in_progress") :
    getAssoc (ids.foldl (cancelHistoryStep server nick) store) k = some u := by
  induction ids generalizing store with
  | nil => simpa using hk
  | cons tid rest ih =>
    simp only [List.foldl_cons]
    apply ih
    unfold cancelHistoryStep
    by_cases htid : tid = k
    · subst htid
      rw [hk]
      have hfalse : (u.status == "in_progress") = false := by
        simpa using hu
      simp [hfalse, hk]
    · cases hga : getAssoc store tid with
      | none => simpa [hga] using hk
      | some t =>
        simp only [hga]
        split
        · rw [getAssoc_updateStore_ne store tid k cancelled (fun h => htid h.symm)]
          exact hk
        · exact hk

/-- C5: `cancel_transfer` returns true exactly when the named server's
session holds a current transfer matching `(nick, filename)` with status
`"in_progress"` (false in particular when the server has no session); on
success it emits exactly one disconnect with reason "Cancelled by user" and
the matched record — shared with the manager's history — reads status
`"cancelled"`, error "Cancelled by user", `connected = false`; on failure
the state is unchanged and nothing is disconnected. -/
theorem c5_cancel_transfer_spec (st : MgrState) (server nick filename : String) :
    ((cancelTransfer st server nick filename).1 = true ↔
      ∃ current, getAssoc st.bots server = some current ∧
        ∃ dt, dt ∈ current ∧ ∃ t, getAssoc st.store dt.2 = some t ∧
          cancelMatch t nick filename = true) ∧
    ((cancelTransfer st server nick filename).1 = false →
      (cancelTransfer st server nick filename).2.1 = st ∧
      (cancelTransfer st server nick filename).2.2 = []) ∧
    ((cancelTransfer st server nick filename).1 = true →
      ∃ dcc tid t, getAssoc st.store tid = some t ∧ cancelMatch t nick filename = true ∧
        (cancelTransfer st server nick filename).2.2 = [(dcc, "Cancelled by user")] ∧
        getAssoc (cancelTransfer st server nick filename).2.1.store tid =
          some (cancelled t)) := by
  cases hb : getAssoc st.bots server with
  | none =>
    have e1 : cancelTransfer st server nick filename = (false, st, []) := by
      unfold cancelTransfer
      simp only [hb]
    refine ⟨?_, fun _ => by simp [e1], fun h => by simp [e1] at h⟩
    simp [e1, hb]
  | some current =>
    cases hf : findCancelTarget st.store current nick filename with
    | none =>
      have e1 : cancelTransfer st server nick filename = (false, st, []) := by
        unfold cancelTransfer
        simp only [hb, hf]
      refine ⟨?_, fun _ => by simp [e1], fun h => by simp [e1] at h⟩
      simp only [e1]
      constructor
      · intro h; cases h
      · rintro ⟨current2, hc2, dt, hmem, t, hget, hmatch⟩
        injection hc2 with hc2
        subst hc2
        have hnone := List.find?_eq_none.mp hf dt hmem
        rw [hget] at hnone
        simp [hmatch] at hnone
    | some dt =>
      have e2 : cancelTransfer st server nick filename =
          (true,
           { st with
              store := List.foldl (cancelHistoryStep server nick)
                (updateStore st.store dt.2 cancelled)
                ((getAssoc st.history filename).getD []),
              bots := setAssoc st.bots server (eraseAssoc current dt.1) },
           [(dt.1, "Cancelled by user")]) := by
        unfold cancelTransfer
        simp only [hb, hf]
      have hpred := List.find?_some hf
      have hmem := List.mem_of_find?_eq_some hf
      cases hget : getAssoc st.store dt.2 with
      | none => rw [hget] at hpred; simp at hpred
      | some t =>
        rw [hget] at hpred
        refine ⟨?_, fun h => by simp [e2] at h, fun _ => ?_⟩
        · simp only [e2]
          exact ⟨fun _ => ⟨current, rfl, dt, hmem, t, hget, hpred⟩, fun _ => trivial⟩
        · refine ⟨dt.1, dt.2, t, hget, hpred, by simp [e2], ?_⟩
          simp only [e2]
          apply cancelHistoryFold_preserves
          · rw [getAssoc_updateStore_self, hget]
            rfl
          · simp [cancelled]

def c5T : Transfer := { c2T with status := "in_progress", connected := true }

def c5St : MgrState :=
  { store := [(0, c5T)], bots := [("srv", [(7, 0)])], history := [("f", [0])] }

/-- C5 (witness): a matching in-progress transfer cancels (true); a
non-matching nick does not (false). -/
theorem c5_witness :
    (cancelTransfer c5St "srv" "bob" "f").1 = true ∧
    (cancelTransfer c5St "srv" "other" "f").1 = false :=
  ⟨(c5_cancel_transfer_spec c5St "srv" "bob" "f").1.mpr
      ⟨[(7, 0)], rfl, (7, 0), by decide, c5T, rfl, by decide⟩,
   by decide⟩

/-! ## Claims C6, C7, C8: the DCC SEND offer handler -/

/-- Helper: once the validation gates of ircbot.py:607-662 pass, the
handler's result is decided by the local-file probe alone. -/
theorem onDccSend_gates_pass (cfg : SendCfg) (records : List Transfer)
    (fs : List (String × Nat)) (nick : String) (offer : SendOffer) (use_ssl : Bool)
    (now : Nat)
    (h1 : offer.addrValid = true)
    (h2 : offer.addrPrivate = false ∨ cfg.allow_private_ips = true)
    (h3 : is_valid_filename cfg.download_path offer.filename = true)
    (h4 : 1 ≤ offer.peer_port) (h5 : offer.peer_port ≤ 65535)
    (h6 : 1 ≤ offer.size) (h7 : offer.size ≤ cfg.max_file_size)
    (h8 : records.any (fun r => r.size = offer.size ∧ r.connected) = false) :
    onDccSend cfg records fs nick offer use_ssl now =
      match (sendLocalFiles cfg offer.filename).find? (fun p => (getAssoc fs p).isSome) with
      | some p =>
        let localSize : Int := ((getAssoc fs p).getD 0 : Nat)
        if localSize > offer.size then SendResult.reject "Local file larger then remote file"
        else
          SendResult.resume
            { nick := nick, filename := stripDoubleQuotes offer.filename,
              port := offer.peer_port,
              position := if localSize = offer.size then localSize - 4096 else localSize }
            { peer_address := offer.peer_address, peer_port := offer.peer_port,
              filename := offer.filename, path := p, size := offer.size,
              offset := if localSize = offer.size then localSize - 4096 else localSize,
              use_ssl := use_ssl, completed := localSize = offer.size,
              requested_time := now }
      | none =>
        SendResult.connect
          { nick := nick, peer_address := offer.peer_address, peer_port := offer.peer_port,
            filename := offer.filename, download_path := sendFinalPath cfg offer.filename,
            size := offer.size, offset := 0, use_ssl := use_ssl, completed := false } := by
  unfold onDccSend
  rw [if_neg (by simp [h1]),
      if_neg (by rcases h2 with h | h <;> simp [h]),
      if_neg (by simp [h3]),
      if_neg (by omega),
      if_neg (by omega),
      if_neg (by omega),
      if_neg (by omega),
      if_neg (by simpa using h8)]

/-- C6: a validated offer whose filename maps to an existing local file of
exactly the declared size yields the resume path with `completed = true`:
the CTCP DCC RESUME carries offset `local_size − 4096` and the queued
resume tuple carries that same offset plus the completed flag. -/
theorem c6_completed_file_still_resumes (cfg : SendCfg) (records : List Transfer)
    (fs : List (String × Nat)) (nick : String) (offer : SendOffer) (use_ssl : Bool)
    (now : Nat) (p : String) (n : Nat)
    (h1 : offer.addrValid = true)
    (h2 : offer.addrPrivate = false ∨ cfg.allow_private_ips = true)
    (h3 : is_valid_filename cfg.download_path offer.filename = true)
    (h4 : 1 ≤ offer.peer_port) (h5 : offer.peer_port ≤ 65535)
    (h6 : 1 ≤ offer.size) (h7 : offer.size ≤ cfg.max_file_size)
    (h8 : records.any (fun r => r.size = offer.size ∧ r.connected) = false)
    (hfind : (sendLocalFiles cfg offer.filename).find?
      (fun q => (getAssoc fs q).isSome) = some p)
    (hn : getAssoc fs p = some n)
    (heq : (n : Int) = offer.size) :
    onDccSend cfg records fs nick offer use_ssl now =
      SendResult.resume
        { nick := nick, filename := stripDoubleQuotes offer.filename,
          port := offer.peer_port, position := offer.size - 4096 }
        { peer_address := offer.peer_address, peer_port := offer.peer_port,
          filename := offer.filename, path := p, size := offer.size,
          offset := offer.size - 4096, use_ssl := use_ssl, completed := true,
          requested_time := now } := by
  rw [onDccSend_gates_pass cfg records fs nick offer use_ssl now h1 h2 h3 h4 h5 h6 h7 h8,
      hfind]
  simp only [hn, Option.getD_some]
  rw [if_neg (by omega), if_pos heq]
  simp [heq]

def sendCfgEx : SendCfg :=
  { download_path := "/dl", allow_private_ips := true, incomplete_suffix := none,
    max_file_size := 1000000 }

def c6Offer : SendOffer :=
  { filename := "f", peer_address := "1.2.3.4", addrValid := true,
    addrPrivate := false, peer_port := 5000, size := 8192 }

/-- C6 (witness): an 8192-byte local file matching an 8192-byte offer. -/
theorem c6_witness :
    onDccSend sendCfgEx [] [("/dl/f", 8192)] "bob" c6Offer false 100 =
      SendResult.resume
        { nick := "bob", filename := stripDoubleQuotes c6Offer.filename,
          port := c6Offer.peer_port, position := c6Offer.size - 4096 }
        { peer_address := c6Offer.peer_address, peer_port := c6Offer.peer_port,
          filename := c6Offer.filename, path := "/dl/f", size := c6Offer.size,
          offset := c6Offer.size - 4096, use_ssl := false, completed := true,
          requested_time := 100 } :=
  c6_completed_file_still_resumes sendCfgEx [] [("/dl/f", 8192)] "bob" c6Offer false 100
    "/dl/f" 8192 rfl (Or.inl rfl) (by decide) (by decide) (by decide) (by decide)
    (by decide) rfl (by decide) rfl (by decide)

/-- C7 (amended): under the validation gates, the handler connects directly
(offset 0) exactly when *no* local candidate file exists; whenever a
candidate exists with `local_size ≤ remote size` — including a zero-length
one — the resume path is taken, with offset `local_size` (or
`local_size − 4096` when the sizes are equal). -/
theorem c7_resume_iff_local_file_exists (cfg : SendCfg) (records : List Transfer)
    (fs : List (String × Nat)) (nick : String) (offer : SendOffer) (use_ssl : Bool)
    (now : Nat)
    (h1 : offer.addrValid = true)
    (h2 : offer.addrPrivate = false ∨ cfg.allow_private_ips = true)
    (h3 : is_valid_filename cfg.download_path offer.filename = true)
    (h4 : 1 ≤ offer.peer_port) (h5 : offer.peer_port ≤ 65535)
    (h6 : 1 ≤ offer.size) (h7 : offer.size ≤ cfg.max_file_size)
    (h8 : records.any (fun r => r.size = offer.size ∧ r.connected) = false) :
    ((sendLocalFiles cfg offer.filename).find? (fun q => (getAssoc fs q).isSome) = none →
      onDccSend cfg records fs nick offer use_ssl now =
        SendResult.connect
          { nick := nick, peer_address := offer.peer_address,
            peer_port := offer.peer_port, filename := offer.filename,
            download_path := sendFinalPath cfg offer.filename, size := offer.size,
            offset := 0, use_ssl := use_ssl, completed := false }) ∧
    (∀ p n, (sendLocalFiles cfg offer.filename).find?
        (fun q => (getAssoc fs q).isSome) = some p →
      getAssoc fs p = some n → (n : Int) ≤ offer.size →
      ∃ c e, onDccSend cfg records fs nick offer use_ssl now = SendResult.resume c e ∧
        e.path = p ∧
        e.offset = (if (n : Int) = offer.size then (n : Int) - 4096 else (n : Int)) ∧
        e.completed = decide ((n : Int) = offer.size)) := by
  constructor
  · intro hnone
    rw [onDccSend_gates_pass cfg records fs nick offer use_ssl now h1 h2 h3 h4 h5 h6 h7 h8,
        hnone]
  · intro p n hfind hn hle
    rw [onDccSend_gates_pass cfg records fs nick offer use_ssl now h1 h2 h3 h4 h5 h6 h7 h8,
        hfind]
    simp only [hn, Option.getD_some]
    rw [if_neg (by omega)]
    exact ⟨_, _, rfl, rfl, rfl, rfl⟩

def c7Offer : SendOffer := { c6Offer with size := 10 }

/-- C7 (counterexample): a local file of length **zero** exists, yet the
handler still takes the resume path — it emits `DCC RESUME` with offset 0
and queues a resume tuple with offset 0 — instead of opening the data
connection directly as the claim states. -/
theorem c7_counterexample :
    getAssoc [("/dl/f", 0)] "/dl/f" = some 0 ∧
    onDccSend sendCfgEx [] [("/dl/f", 0)] "bob" c7Offer false 100 =
      SendResult.resume
        { nick := "bob", filename := "f", port := 5000, position := 0 }
        { peer_address := "1.2.3.4", peer_port := 5000, filename := "f",
          path := "/dl/f", size := 10, offset := 0, use_ssl := false,
          completed := false, requested_time := 100 } := by decide

/-- C7 (witness for the amended theorem): with no local file the handler
connects directly at offset 0. -/
theorem c7_witness :
    onDccSend sendCfgEx [] [] "bob" c7Offer false 100 =
      SendResult.connect
        { nick := "bob", peer_address := c7Offer.peer_address,
          peer_port := c7Offer.peer_port, filename := c7Offer.filename,
          download_path := sendFinalPath sendCfgEx c7Offer.filename,
          size := c7Offer.size, offset := 0, use_ssl := false, completed := false } :=
  (c7_resume_iff_local_file_exists sendCfgEx [] [] "bob" c7Offer false 100
    rfl (Or.inl rfl) (by decide) (by decide) (by decide) (by decide) (by decide)
    rfl).1 (by decide)

/-- C8 (amended): an offer is rejected exactly on the `(filename, size,
connected)` duplicate test — when some record under the same filename has
the same size and `connected = true` and the earlier gates pass. -/
theorem c8_duplicate_offer_rejected (cfg : SendCfg) (records : List Transfer)
    (fs : List (String × Nat)) (nick : String) (offer : SendOffer) (use_ssl : Bool)
    (now : Nat)
    (h1 : offer.addrValid = true)
    (h2 : offer.addrPrivate = false ∨ cfg.allow_private_ips = true)
    (h3 : is_valid_filename cfg.download_path offer.filename = true)
    (h4 : 1 ≤ offer.peer_port) (h5 : offer.peer_port ≤ 65535)
    (h6 : 1 ≤ offer.size) (h7 : offer.size ≤ cfg.max_file_size)
    (hdup : records.any (fun r => r.size = offer.size ∧ r.connected) = true) :
    onDccSend cfg records fs nick offer use_ssl now =
      SendResult.reject "Download of file already in progress" := by
  unfold onDccSend
  rw [if_neg (by simp [h1]),
      if_neg (by rcases h2 with h | h <;> simp [h]),
      if_neg (by simp [h3]),
      if_neg (by omega),
      if_neg (by omega),
      if_neg (by omega),
      if_neg (by omega),
      if_pos hdup]

def c8Env : SysEnv := { server := "srv", cfg := sendCfgEx, allowed_mimetypes := [] }

def c8Offer1 : SendOffer := { c6Offer with size := 10 }

def c8Offer2 : SendOffer := { c6Offer with peer_port := 5001, size := 20 }

/-- Two offers from the same nick for the same filename, differing only in
size, each followed by a first data chunk. -/
def c8Ops : List SysOp :=
  [.send "bob" c8Offer1 false 100,
   .send "bob" c8Offer2 false 101,
   .dccMsg 0 1 "x" true 102,
   .dccMsg 1 1 "x" true 103]

/-- C8 (counterexample): after the sequence above, the manager's history
for filename "f" holds **two** records with the same `(server, nick,
filename)` and both `connected = true` — the duplicate check keys on
`(filename, size)` only, so the claimed at-most-one-connected invariant
per `(server, nick, filename)` fails. -/
theorem c8_counterexample :
    (historyRecords (sysRun c8Env emptySysState c8Ops) "f").map
        (fun t => (t.server, t.nick, t.filename, t.connected)) =
      [("srv", "bob", "f", true), ("srv", "bob", "f", true)] := by decide

def c8DupRecord : Transfer := { c2T with size := 8192, connected := true }

/-- C8 (witness for the amended theorem). -/
theorem c8_witness :
    onDccSend sendCfgEx [c8DupRecord] [] "bob" c6Offer false 100 =
      SendResult.reject "Download of file already in progress" :=
  c8_duplicate_offer_rejected sendCfgEx [c8DupRecord] [] "bob" c6Offer false 100
    rfl (Or.inl rfl) (by decide) (by decide) (by decide) (by decide) (by decide)
    (by decide)

/-! ## Claim C10: the DCC ACCEPT guards -/

/-- C10: an ACCEPT whose port is outside `[1024, 65535]` or whose resume
position is below 1 is dropped before the queue contents are consulted
(state unchanged, no connection); consequently a queued resume entry whose
recorded offset is 0, or whose peer port lies in `[1, 1023]`, survives
every possible ACCEPT — only the resume-timeout sweep can remove it. -/
theorem c10_unmatchable_resume_entries (rq : List (String × List ResumeEntry))
    (nick nick2 : String) (q : List ResumeEntry) (e : ResumeEntry)
    (parsed : Option (Nat × Nat))
    (hq : getAssoc rq nick = some q) (he : e ∈ q)
    (hbad : e.offset = 0 ∨ (1 ≤ e.peer_port ∧ e.peer_port ≤ 1023)) :
    (∀ (rq0 : List (String × List ResumeEntry)) (n0 : String) (port pos : Nat),
        port < 1024 ∨ port > 65535 ∨ pos < 1 →
        onDccAccept rq0 n0 (some (port, pos)) = { resume_queue := rq0, connect := none }) ∧
    (∃ q2, getAssoc (onDccAccept rq nick2 parsed).resume_queue nick = some q2 ∧
      e ∈ q2) := by
  constructor
  · intro rq0 n0 port pos hinv
    unfold onDccAccept
    cases hga : getAssoc rq0 n0 with
    | none => rfl
    | some queue =>
      by_cases hp : port < 1024 ∨ port > 65535
      · simp only [if_pos hp]
      · rcases hinv with h | h | h
        · exact absurd (Or.inl h) hp
        · exact absurd (Or.inr h) hp
        · simp only [if_neg hp, if_pos h]
  · have hfalse : ∀ port pos : Nat, 1024 ≤ port → 1 ≤ pos →
        acceptMatches port pos e = false := by
      intro port pos hport hpos
      unfold acceptMatches
      rcases hbad with h | ⟨hp1, hp2⟩
      · have h2 : ((pos : Int) == e.offset) = false := by
          rw [h]
          simp
          omega
        simp [h2]
      · have h2 : ((port : Int) == e.peer_port) = false := by
          simp
          omega
        simp [h2]
    unfold onDccAccept
    cases hga : getAssoc rq nick2 with
    | none => exact ⟨q, hq, he⟩
    | some queue =>
      cases parsed with
      | none => exact ⟨q, hq, he⟩
      | some pp =>
        obtain ⟨port, pos⟩ := pp
        by_cases hp : port < 1024 ∨ port > 65535
        · simp only [if_pos hp]
          exact ⟨q, hq, he⟩
        · simp only [if_neg hp]
          by_cases hr : pos < 1
          · simp only [if_pos hr]
            exact ⟨q, hq, he⟩
          · simp only [if_neg hr]
            cases hfind : queue.find? (acceptMatches port pos) with
            | none => exact ⟨q, hq, he⟩
            | some item =>
              have hmf : acceptMatches port pos e = false :=
                hfalse port pos (by omega) (by omega)
              by_cases hnn : nick2 = nick
              · subst hnn
                rw [hga] at hq
                injection hq with hq
                subst hq
                have hmem2 : e ∈ removeFirst (acceptMatches port pos) queue :=
                  mem_removeFirst _ _ _ he hmf
                have hne : (removeFirst (acceptMatches port pos) queue).isEmpty = false := by
                  cases hrf : removeFirst (acceptMatches port pos) queue with
                  | nil => rw [hrf] at hmem2; simp at hmem2
                  | cons a l => rfl
                simp only [hne, Bool.false_eq_true, if_false]
                exact ⟨removeFirst (acceptMatches port pos) queue,
                  getAssoc_setAssoc_self rq nick2 _, hmem2⟩
              · have hnn2 : nick ≠ nick2 := fun h => hnn h.symm
                by_cases hie : (removeFirst (acceptMatches port pos) queue).isEmpty
                · simp only [hie, if_true]
                  exact ⟨q, by rw [getAssoc_eraseAssoc_ne rq nick nick2 hnn2]; exact hq, he⟩
                · simp only [hie, Bool.false_eq_true, if_false]
                  exact ⟨q, by rw [getAssoc_setAssoc_ne rq nick nick2 _ hnn2]; exact hq, he⟩

def c10Entry : ResumeEntry :=
  { peer_address := "1.2.3.4", peer_port := 5000, filename := "f", path := "/dl/f",
    size := 10, offset := 0, use_ssl := false, completed := false,
    requested_time := 100 }

/-- C10 (witness): a zero-offset entry survives a well-formed ACCEPT. -/
theorem c10_witness :
    (∀ (rq0 : List (String × List ResumeEntry)) (n0 : String) (port pos : Nat),
        port < 1024 ∨ port > 65535 ∨ pos < 1 →
        onDccAccept rq0 n0 (some (port, pos)) = { resume_queue := rq0, connect := none }) ∧
    (∃ q2, getAssoc (onDccAccept [("bob", [c10Entry])] "bob"
        (some (5000, 7))).resume_queue "bob" = some q2 ∧ c10Entry ∈ q2) :=
  c10_unmatchable_resume_entries [("bob", [c10Entry])] "bob" "bob" [c10Entry]
    c10Entry (some (5000, 7)) rfl (by decide) (Or.inl rfl)

end Dccbot
